import Mathlib

/-
Shallow embedding of the aviation weather briefing engine:
  - backend-node/controllers/flightPlanController.js (route briefing aggregation)
  - backend-node/utils/apiFetcher.js (fetch, cache, mock fallback)
  - frontend-react/src/services/aviationParsers.js (METAR report parsing)
JavaScript numbers are modelled with Nat/Int/Rat, timestamps with Nat
milliseconds, the in-memory Map cache with an association list, and the
outcome of a live-source HTTP request with an Option-valued parameter.
-/

/-- Severity values used throughout the controller; the JavaScript code
stores them as the strings "CLEAR" / "SIGNIFICANT" / "SEVERE". -/
inductive Severity where
  | CLEAR
  | SIGNIFICANT
  | SEVERE
deriving DecidableEq, Fintype

/-- Ordinal rank of a severity (CLEAR < SIGNIFICANT < SEVERE). -/
def Severity.toRank : Severity → Nat
  | .CLEAR => 0
  | .SIGNIFICANT => 1
  | .SEVERE => 2

/-- Maximum of two severities under the CLEAR < SIGNIFICANT < SEVERE order. -/
def sevMax (a b : Severity) : Severity :=
  if a.toRank ≤ b.toRank then b else a

/-- Ordering relation on severities. -/
def sevLe (a b : Severity) : Prop := a.toRank ≤ b.toRank

instance (a b : Severity) : Decidable (sevLe a b) :=
  inferInstanceAs (Decidable (a.toRank ≤ b.toRank))

/-- Waypoint as it reaches getRouteBriefing: a named point whose weather has
already been classified to a severity (the /generate endpoint attaches a
`severity` field to each waypoint before the client posts them back). -/
structure RouteWaypoint where
  name : String
  severity : Severity
deriving DecidableEq

/-- One entry of briefing.weatherBySegment (flightPlanController.js lines
80-87): the two endpoint waypoints and the segment severity.  The
`conditions` field (live weather text from getWeatherAlongRoute) is not
modelled; no property below depends on it. -/
structure SegmentWeather where
  fromWp : RouteWaypoint
  toWp : RouteWaypoint
  severity : Severity
deriving DecidableEq

/-- Alert pushed for a SEVERE segment (flightPlanController.js lines 89-95). -/
structure RouteAlert where
  type : String
  segment : String
  message : String
deriving DecidableEq

/-- The briefing object built by getRouteBriefing (lines 68-101). -/
structure RouteBriefing where
  summary : String
  alerts : List RouteAlert
  weatherBySegment : List SegmentWeather
  overallSeverity : Severity
deriving DecidableEq

/-- Modelled from the spec: severityClassifier.classifySegment is called by
flightPlanController.js line 84 but utils/severityClassifier.js is not in
the source tree.  Spec section 4.4: "compute a segment severity as the
maximum of its endpoints' severities". -/
def classifySegment (a b : RouteWaypoint) : Severity :=
  sevMax a.severity b.severity

/-- Modelled from the spec: severityClassifier.getRouteSeverity is called by
flightPlanController.js line 100 on briefing.weatherBySegment but
utils/severityClassifier.js is not in the source tree.  Spec sections 3 and
4.4: severity "aggregation always takes the maximum across inputs"; the base
value for no inputs is CLEAR, matching the controller's initialisation
`overallSeverity: 'CLEAR'` (line 72). -/
def getRouteSeverity (segs : List SegmentWeather) : Severity :=
  segs.foldr (fun s acc => sevMax s.severity acc) Severity.CLEAR

/-- Count of analyzed segments with severity SEVERE
(flightPlanController.js line 192). -/
def severeSegmentCount (segs : List SegmentWeather) : Nat :=
  (segs.filter (fun s => s.severity == Severity.SEVERE)).length

/-- Count of analyzed segments with severity SIGNIFICANT
(flightPlanController.js line 193). -/
def significantSegmentCount (segs : List SegmentWeather) : Nat :=
  (segs.filter (fun s => s.severity == Severity.SIGNIFICANT)).length

/-- generateRouteSummary (flightPlanController.js lines 191-202). -/
def generateRouteSummary (segs : List SegmentWeather) : String :=
  if severeSegmentCount segs > 0 then
    "Route has " ++ toString (severeSegmentCount segs) ++
      " severe weather segment(s). Recommend alternate routing or delay."
  else if significantSegmentCount segs > 0 then
    "Route has " ++ toString (significantSegmentCount segs) ++
      " significant weather segment(s). Monitor conditions closely."
  else
    "Route conditions are generally favorable for flight."

/-- The segment-analysis loop of getRouteBriefing (lines 76-87): one
SegmentWeather per consecutive waypoint pair. -/
def analyzeSegments : List RouteWaypoint → List SegmentWeather
  | a :: b :: rest =>
      { fromWp := a, toWp := b, severity := classifySegment a b } ::
        analyzeSegments (b :: rest)
  | _ => []

/-- The alert-accumulation inside the same loop (lines 89-95): one alert per
SEVERE segment, in segment order. -/
def segmentAlerts (segs : List SegmentWeather) : List RouteAlert :=
  (segs.filter (fun s => s.severity == Severity.SEVERE)).map (fun s =>
    { type := "SEVERE_WEATHER",
      segment := s.fromWp.name ++ " to " ++ s.toWp.name,
      message := "Severe weather conditions detected along this segment" })

/-- getRouteBriefing (flightPlanController.js lines 58-101), restricted to
the briefing value it computes for a well-formed waypoint array. -/
def getRouteBriefing (waypoints : List RouteWaypoint) : RouteBriefing :=
  let segs := analyzeSegments waypoints
  { summary := generateRouteSummary segs,
    alerts := segmentAlerts segs,
    weatherBySegment := segs,
    overallSeverity := getRouteSeverity segs }

/-- Written from the spec for comparison with the code: "The overall route
severity is the maximum across all waypoint and segment severities"
(spec section 4.4). -/
def specOverallSeverity (waypoints : List RouteWaypoint) : Severity :=
  sevMax
    ((waypoints.map RouteWaypoint.severity).foldr sevMax Severity.CLEAR)
    (((analyzeSegments waypoints).map SegmentWeather.severity).foldr sevMax Severity.CLEAR)

/-
Source Aggregator / Cache: backend-node/utils/apiFetcher.js.
-/

/-- JavaScript `icao.toUpperCase()` on the ASCII station codes used here;
`Char.toUpper` is exactly the basic-latin uppercase mapping. -/
def jsToUpper (s : String) : String :=
  String.mk (s.data.map Char.toUpper)

/-- CACHE_DURATION (apiFetcher.js line 17): 5 minutes in milliseconds,
used by both the METAR freshness check (line 33) and the TAF freshness
check (line 76). -/
def CACHE_DURATION : Nat := 5 * 60 * 1000

/-- Record returned for a METAR (shape of fetchMetarFromPrimary's result,
lines 207-215, and of generateMockMetar's result, lines 299-305; the mock
adds the `source` field, so it is optional here). -/
structure MetarData where
  raw : String
  observationTime : Nat
  station : String
  coordinates : Rat × Rat
  source : Option String
deriving DecidableEq

/-- Record returned for a TAF (shape of fetchTafFromPrimary's result,
lines 239-244, and of generateMockTaf's result, lines 319-325). -/
structure TafData where
  raw : String
  issueTime : Nat
  station : String
  validTime : Nat
  source : Option String
deriving DecidableEq

/-- A value stored in the shared cache Map: METAR entries under keys
`metar_X` and TAF entries under keys `taf_X`. -/
inductive WxData where
  | metar : MetarData → WxData
  | taf : TafData → WxData
deriving DecidableEq

/-- Cache entry: `{ data, timestamp }` (apiFetcher.js lines 43-46). -/
structure CacheEntry where
  data : WxData
  timestamp : Nat
deriving DecidableEq

/-- The in-memory cache Map (apiFetcher.js line 20), as an association
list keyed by the cache-key string. -/
abbrev WxCache := List (String × CacheEntry)

/-- Map.get / Map.has (first binding wins, as each key is stored once). -/
def cacheGet : WxCache → String → Option CacheEntry
  | [], _ => none
  | (k, v) :: rest, key => if k = key then some v else cacheGet rest key

/-- Map.set: replace the binding for the key, or append a fresh one. -/
def cacheSet : WxCache → String → CacheEntry → WxCache
  | [], key, v => [(key, v)]
  | (k, w) :: rest, key, v =>
      if k = key then (key, v) :: rest else (k, w) :: cacheSet rest key v

/-- JavaScript `Math.floor` on the rational value of a JS number. -/
def jsFloor (q : Rat) : Int := q.floor

/-- JavaScript `String(n).padStart(len, c)`. -/
def jsPadStart (s : String) (len : Nat) (c : Char) : String :=
  String.mk (List.replicate (len - s.length) c) ++ s

/-- generateMockMetar (apiFetcher.js lines 291-306).  The five successive
`Math.random()` draws are modelled by `rand 0` .. `rand 4`, and
`new Date().toISOString()` by the current clock `now`. -/
def generateMockMetar (icao : String) (rand : Nat → Rat) (now : Nat) : MetarData :=
  let temp : Int := jsFloor (rand 0 * 20) + 10
  let dew : Int := temp - (jsFloor (rand 1 * 7) + 2)
  let windDir : String := jsPadStart (toString (jsFloor (rand 2 * 36) * 10)) 3 '0'
  let windSpeed : Int := jsFloor (rand 3 * 20) + 2
  let altimeter : Int := 2990 + jsFloor (rand 4 * 30)
  let metarText : String :=
    icao ++ " 252153Z " ++ windDir ++ (if windSpeed < 10 then "0" else "") ++
      toString windSpeed ++ "KT 10SM CLR " ++ toString temp ++ "/" ++ toString dew ++
      " A" ++ toString altimeter ++ " RMK AO2"
  { raw := metarText,
    observationTime := now,
    station := icao,
    coordinates := (40, -74),
    source := some "mock" }

/-- The mockTafs lookup table (apiFetcher.js lines 309-315). -/
def mockTafLookup (icao : String) : Option String :=
  if icao = "KJFK" then
    some "TAF KJFK 252030Z 2521/2624 24015G20KT P6SM BKN020 TEMPO 2521/2524 BKN012"
  else if icao = "KLAX" then
    some "TAF KLAX 252030Z 2521/2624 25008KT P6SM SKC BECMG 2602/2604 BKN015"
  else if icao = "KORD" then
    some "TAF KORD 252030Z 2521/2624 28012KT 6SM BKN020 TEMPO 2521/2603 4SM BR BKN010"
  else if icao = "KATL" then
    some "TAF KATL 252030Z 2521/2624 31018G25KT P6SM SCT030 BKN100"
  else if icao = "KDEN" then
    some "TAF KDEN 252030Z 2521/2624 25015KT P6SM FEW120 SCT180"
  else
    none

/-- generateMockTaf (apiFetcher.js lines 308-326). -/
def generateMockTaf (icao : String) (now : Nat) : TafData :=
  let tafText :=
    (mockTafLookup icao).getD ("TAF " ++ icao ++ " 252030Z 2521/2624 00000KT P6SM SKC")
  { raw := tafText,
    issueTime := now,
    station := icao,
    validTime := now + 24 * 60 * 60 * 1000,
    source := some "mock" }

/-- getLatestMetar (apiFetcher.js lines 23-63).  The outcome of the single
`fetchMetarFromPrimary(icao.toUpperCase())` HTTP call is supplied as
`primaryMetar` (`none` = request failed / no data); `generateMockMetar`
never throws, so the backup catch branch (line 58) is unreachable and a
primary failure always yields the mock record, uncached. -/
def getLatestMetar (icao : String) (primaryMetar : String → Option MetarData)
    (rand : Nat → Rat) (cache : WxCache) (now : Nat) :
    Except String WxData × WxCache :=
  if icao = "" then
    (Except.error "ICAO code is required", cache)
  else
    let cacheKey := "metar_" ++ jsToUpper icao
    let tryFetch : Except String WxData × WxCache :=
      match primaryMetar (jsToUpper icao) with
      | some metarData =>
          (Except.ok (WxData.metar metarData),
           cacheSet cache cacheKey { data := WxData.metar metarData, timestamp := now })
      | none =>
          (Except.ok (WxData.metar (generateMockMetar (jsToUpper icao) rand now)), cache)
    match cacheGet cache cacheKey with
    | some cached =>
        if now - cached.timestamp < CACHE_DURATION then (Except.ok cached.data, cache)
        else tryFetch
    | none => tryFetch

/-- Aggregator state for the concurrency model: the shared cache Map plus a
counter of live-source HTTP requests issued so far (each execution of
`await axios.get` in fetchMetarFromPrimary, apiFetcher.js line 197). -/
structure AggState where
  cache : WxCache
  liveCalls : Nat
deriving DecidableEq

/-- The synchronous section of getLatestMetar for a non-empty icao, from
entry up to the `await` on fetchMetarFromPrimary (apiFetcher.js lines
28-40).  Node runs this section atomically: on a fresh cache hit the caller
returns `some data` at once with no live call; otherwise the caller issues
the HTTP request (incrementing `liveCalls`) and suspends, returning `none`.
Crucially, `cache.set` (line 43) runs only after the await resolves, so a
fetch in flight leaves no trace in the cache. -/
def beginMetarFetch (st : AggState) (icao : String) (now : Nat) :
    AggState × Option WxData :=
  let cacheKey := "metar_" ++ jsToUpper icao
  match cacheGet st.cache cacheKey with
  | some cached =>
      if now - cached.timestamp < CACHE_DURATION then (st, some cached.data)
      else ({ st with liveCalls := st.liveCalls + 1 }, none)
  | none => ({ st with liveCalls := st.liveCalls + 1 }, none)

/-- The continuation of getLatestMetar after its primary `await` resolves
successfully with `d` (apiFetcher.js lines 43-48): store the result in the
cache and return it. -/
def resolveMetarFetch (st : AggState) (icao : String) (d : MetarData) (now : Nat) :
    AggState :=
  { st with
    cache := cacheSet st.cache ("metar_" ++ jsToUpper icao)
      { data := WxData.metar d, timestamp := now } }

/-- getLatestTaf (apiFetcher.js lines 66-106), analogous to
`getLatestMetar` with the `taf_` key space and generateMockTaf. -/
def getLatestTaf (icao : String) (primaryTaf : String → Option TafData)
    (cache : WxCache) (now : Nat) :
    Except String WxData × WxCache :=
  if icao = "" then
    (Except.error "ICAO code is required", cache)
  else
    let cacheKey := "taf_" ++ jsToUpper icao
    let tryFetch : Except String WxData × WxCache :=
      match primaryTaf (jsToUpper icao) with
      | some tafData =>
          (Except.ok (WxData.taf tafData),
           cacheSet cache cacheKey { data := WxData.taf tafData, timestamp := now })
      | none =>
          (Except.ok (WxData.taf (generateMockTaf (jsToUpper icao) now)), cache)
    match cacheGet cache cacheKey with
    | some cached =>
        if now - cached.timestamp < CACHE_DURATION then (Except.ok cached.data, cache)
        else tryFetch
    | none => tryFetch

/-
Grammar decoding: frontend-react/src/services/aviationParsers.js.
parseMetar applies one whole-record JavaScript regular expression,
  METAR\s+(\w{4})\s+(\d{6}Z)\s+(\d{3})(\d{2})KT\s+(\d+)SM\s+(.*)\s(\d{2})\/(\d{2})\sA(\d{4})
via String.prototype.match.  The pattern has no alternation and no nested
quantifier, so it is embedded as a flat token list: literals, fixed-width
character classes, and greedy star/plus over a character class.  Matching
follows the JavaScript semantics: leftmost starting position, quantifiers
greedy with backtracking (longest first). -/

/-- JavaScript `\w`: ASCII letters, digits and underscore. -/
def isWordChar (c : Char) : Bool :=
  c.isAlphanum || c == '_'

/-- JavaScript `\d`: ASCII digits. -/
def isDigitChar (c : Char) : Bool :=
  c.isDigit

/-- JavaScript `\s`: whitespace and unicode space characters. -/
def isJsSpace (c : Char) : Bool :=
  c == ' ' || c == '\t' || c == '\n' || c == '\r' ||
  c.toNat == 11 || c.toNat == 12 || c.toNat == 160 || c.toNat == 0x1680 ||
  (decide (0x2000 ≤ c.toNat) && decide (c.toNat ≤ 0x200a)) ||
  c.toNat == 0x2028 || c.toNat == 0x2029 || c.toNat == 0x202f ||
  c.toNat == 0x205f || c.toNat == 0x3000 || c.toNat == 0xfeff

/-- JavaScript `.` (no s-flag): any character except a line terminator. -/
def isDotChar (c : Char) : Bool :=
  !(c == '\n' || c == '\r' || c.toNat == 0x2028 || c.toNat == 0x2029)

/-- One token of the flattened METAR pattern. -/
inductive RegexTok where
  | lit : Char → RegexTok
  | cls : (Char → Bool) → Nat → RegexTok
  | star : (Char → Bool) → RegexTok
  | plus : (Char → Bool) → RegexTok

/-- Greedy quantifier over a character class: try consuming `k` characters
(at most the maximal run, at least `lo`), backtracking to shorter
consumptions until the continuation `f` — the match of the rest of the
pattern — succeeds on the rest of the string. -/
def tryLens (f : List Char → Option (List (List Char))) (s : List Char)
    (lo : Nat) : Nat → Option (List (List Char))
  | 0 =>
      if 0 < lo then none
      else
        match f s with
        | some cs => some ([] :: cs)
        | none => none
  | k + 1 =>
      if k + 1 < lo then none
      else
        match f (s.drop (k + 1)) with
        | some cs => some (s.take (k + 1) :: cs)
        | none => tryLens f s lo k

/-- Match the token list at the start of `s` (the rest of the string may be
anything, as the pattern is unanchored on the right).  On success, return
the chunk of characters consumed by each token, in order. -/
def matchToks : List RegexTok → List Char → Option (List (List Char))
  | [], _ => some []
  | RegexTok.lit _ :: _, [] => none
  | RegexTok.lit c :: ts, x :: s =>
      if x = c then (matchToks ts s).map (fun cs => [x] :: cs) else none
  | RegexTok.cls p n :: ts, s =>
      let chunk := s.take n
      if chunk.length = n ∧ chunk.all p then
        (matchToks ts (s.drop n)).map (fun cs => chunk :: cs)
      else none
  | RegexTok.star p :: ts, s => tryLens (matchToks ts) s 0 ((s.takeWhile p).length)
  | RegexTok.plus p :: ts, s => tryLens (matchToks ts) s 1 ((s.takeWhile p).length)

/-- String.prototype.match with a non-global regex: try every starting
position from the left and return the first match. -/
def jsSearch (toks : List RegexTok) : List Char → Option (List (List Char))
  | [] => matchToks toks []
  | x :: s =>
      match matchToks toks (x :: s) with
      | some cs => some cs
      | none => jsSearch toks s

/-- Literal characters of a string as tokens. -/
def litStr (s : String) : List RegexTok :=
  s.data.map RegexTok.lit

/-- The METAR pattern of parseMetar (aviationParsers.js line 7) as a token
list.  Capture groups correspond to chunk positions: group 1 = chunk 6,
group 2 = chunks 8-9, group 3 = chunk 11, group 4 = chunk 12, group 5 =
chunk 16, group 6 = chunk 20, group 7 = chunk 22, group 8 = chunk 24,
group 9 = chunk 27. -/
def metarToks : List RegexTok :=
  litStr "METAR" ++
  [RegexTok.plus isJsSpace, RegexTok.cls isWordChar 4, RegexTok.plus isJsSpace,
   RegexTok.cls isDigitChar 6, RegexTok.lit 'Z', RegexTok.plus isJsSpace,
   RegexTok.cls isDigitChar 3, RegexTok.cls isDigitChar 2] ++
  litStr "KT" ++
  [RegexTok.plus isJsSpace, RegexTok.plus isDigitChar] ++
  litStr "SM" ++
  [RegexTok.plus isJsSpace, RegexTok.star isDotChar, RegexTok.cls isJsSpace 1,
   RegexTok.cls isDigitChar 2, RegexTok.lit '/', RegexTok.cls isDigitChar 2,
   RegexTok.cls isJsSpace 1, RegexTok.lit 'A', RegexTok.cls isDigitChar 4]

/-- The chunk consumed by token `i`, as a string. -/
def chunkStr (cs : List (List Char)) (i : Nat) : String :=
  String.mk (cs.getD i [])

/-- Result object of parseMetar: `{ raw, summary }`. -/
structure ParsedReport where
  raw : String
  summary : String
deriving DecidableEq

/-- parseMetar (aviationParsers.js lines 4-13).  An empty string is falsy in
JavaScript, so it returns null (`none`); a failed whole-pattern match
returns the raw text with the fixed summary "Unable to parse METAR."; a
successful match interpolates the nine capture groups. -/
def parseMetar (metar : String) : Option ParsedReport :=
  if metar = "" then none
  else
    match jsSearch metarToks metar.data with
    | none => some { raw := metar, summary := "Unable to parse METAR." }
    | some cs =>
        some { raw := metar,
               summary :=
                 "Station: " ++ chunkStr cs 6 ++
                 ", Time: " ++ (chunkStr cs 8 ++ chunkStr cs 9) ++
                 ", Wind: " ++ chunkStr cs 11 ++ "° at " ++ chunkStr cs 12 ++
                 "kt, Visibility: " ++ chunkStr cs 16 ++
                 "SM, Clouds: " ++ chunkStr cs 20 ++
                 ", Temp/Dew: " ++ chunkStr cs 22 ++ "/" ++ chunkStr cs 24 ++
                 "°C, Pressure: " ++ chunkStr cs 27 }

/-
Concrete inputs used by counterexamples and witnesses.
-/

/-- A METAR in exactly the shape parseMetar's pattern expects. -/
def metarGoodInput : String :=
  "METAR KJFK 252153Z 18010KT 10SM FEW050 22/18 A3001"

/-- The same METAR with a single malformed group: the altimeter group `A30`
has two digits instead of four.  Every other group is unchanged. -/
def metarBadAltimeterInput : String :=
  "METAR KJFK 252153Z 18010KT 10SM FEW050 22/18 A30"

/-- A cached METAR record stored at timestamp 0. -/
def oldMetarEntry : CacheEntry :=
  { data := WxData.metar
      { raw := "KJFK 010000Z 00000KT 10SM CLR 10/05 A3000",
        observationTime := 0, station := "KJFK", coordinates := (0, 0),
        source := none },
    timestamp := 0 }

/-- A cached TAF record stored at timestamp 0. -/
def oldTafEntry : CacheEntry :=
  { data := WxData.taf
      { raw := "TAF KJFK 010000Z 0100/0206 00000KT P6SM SKC",
        issueTime := 0, station := "KJFK", validTime := 0, source := none },
    timestamp := 0 }

/-- A cache holding one METAR entry and one TAF entry for KJFK, both stored
at timestamp 0. -/
def ttlProbeCache : WxCache :=
  [("metar_KJFK", oldMetarEntry), ("taf_KJFK", oldTafEntry)]

/-
Helper lemmas.
-/

theorem sevMax_eq_right : ∀ a b : Severity, sevLe a b → sevMax a b = b := by decide

theorem sevLe_sevMax_left : ∀ a b : Severity, sevLe a (sevMax a b) := by decide

theorem sevLe_sevMax_right : ∀ a b : Severity, sevLe b (sevMax a b) := by decide

theorem sevMax_sevLe : ∀ a b c : Severity, sevLe a c → sevLe b c → sevLe (sevMax a b) c := by
  decide

theorem sevLe_trans : ∀ a b c : Severity, sevLe a b → sevLe b c → sevLe a c := by decide

/-- On a route with at least two waypoints, the maximum waypoint severity is
dominated by the maximum segment severity, because every waypoint is an
endpoint of some segment and each segment severity is the endpoint maximum. -/
theorem wpFold_sevLe_segFold :
    ∀ (a b : RouteWaypoint) (rest : List RouteWaypoint),
    sevLe ((List.map RouteWaypoint.severity (a :: b :: rest)).foldr sevMax Severity.CLEAR)
      ((List.map SegmentWeather.severity (analyzeSegments (a :: b :: rest))).foldr sevMax
        Severity.CLEAR) := by
  intro a b rest
  induction rest generalizing a b with
  | nil =>
      obtain ⟨na, sa⟩ := a
      obtain ⟨nb, sb⟩ := b
      simp only [analyzeSegments, classifySegment, List.map, List.foldr]
      cases sa <;> cases sb <;> decide
  | cons c rest2 ih =>
      simp only [analyzeSegments, classifySegment, List.map, List.foldr] at ih ⊢
      apply sevMax_sevLe
      · exact sevLe_trans _ _ _ (sevLe_sevMax_left a.severity b.severity)
          (sevLe_sevMax_left _ _)
      · exact sevLe_trans _ _ _ (ih b c) (sevLe_sevMax_right _ _)

/-- C5 counterexample: on a single-waypoint route the briefing's overall
severity is CLEAR (no segments are analyzed) even though the maximum over
all waypoint and segment severities is SEVERE, so the claimed equality
fails for this waypoint list. -/
theorem route_severity_spec_counterexample :
    (getRouteBriefing [⟨"MID", Severity.SEVERE⟩]).overallSeverity = Severity.CLEAR ∧
    specOverallSeverity [⟨"MID", Severity.SEVERE⟩] = Severity.SEVERE ∧
    (getRouteBriefing [⟨"MID", Severity.SEVERE⟩]).overallSeverity ≠
      specOverallSeverity [⟨"MID", Severity.SEVERE⟩] := by
  decide

/-- C5 (amended): for every route briefing over a waypoint list with at
least two waypoints, the overall route severity equals the maximum severity
over all waypoint severities and all segment severities. -/
theorem route_severity_eq_spec_max (ws : List RouteWaypoint) (h : 2 ≤ ws.length) :
    (getRouteBriefing ws).overallSeverity = specOverallSeverity ws := by
  cases ws with
  | nil => simp at h
  | cons a tail =>
    cases tail with
    | nil => simp at h
    | cons b rest =>
      show getRouteSeverity (analyzeSegments (a :: b :: rest)) =
        specOverallSeverity (a :: b :: rest)
      unfold getRouteSeverity specOverallSeverity
      rw [← List.foldr_map SegmentWeather.severity sevMax]
      exact (sevMax_eq_right _ _ (wpFold_sevLe_segFold a b rest)).symm

/-- Witness for route_severity_eq_spec_max at a concrete two-waypoint route. -/
theorem route_severity_eq_spec_max_witness :
    (getRouteBriefing [⟨"A", Severity.CLEAR⟩, ⟨"B", Severity.SEVERE⟩]).overallSeverity =
      specOverallSeverity [⟨"A", Severity.CLEAR⟩, ⟨"B", Severity.SEVERE⟩] :=
  route_severity_eq_spec_max [⟨"A", Severity.CLEAR⟩, ⟨"B", Severity.SEVERE⟩] (by decide)

/-- C6 counterexample: a three-waypoint route whose middle waypoint is
SEVERE and whose ends are CLEAR produces two alerts, not exactly one —
both segments adjacent to the middle waypoint classify as SEVERE (segment
severity is the endpoint maximum) and the alert loop pushes one alert per
SEVERE segment. -/
theorem middle_severe_counterexample :
    (getRouteBriefing
      [⟨"AAA", Severity.CLEAR⟩, ⟨"BBB", Severity.SEVERE⟩,
       ⟨"CCC", Severity.CLEAR⟩]).alerts.length = 2 ∧
    (getRouteBriefing
      [⟨"AAA", Severity.CLEAR⟩, ⟨"BBB", Severity.SEVERE⟩,
       ⟨"CCC", Severity.CLEAR⟩]).alerts.length ≠ 1 := by
  decide

/-- C6 (amended): a route briefing over three waypoints with the middle one
SEVERE and the other two CLEAR yields overall route severity SEVERE and
exactly two alerts, one per segment adjacent to the middle waypoint, each
referencing the middle waypoint in its segment label. -/
theorem middle_severe_two_alerts (na nb nc : String) :
    (getRouteBriefing
      [⟨na, Severity.CLEAR⟩, ⟨nb, Severity.SEVERE⟩, ⟨nc, Severity.CLEAR⟩]).overallSeverity
        = Severity.SEVERE ∧
    (getRouteBriefing
      [⟨na, Severity.CLEAR⟩, ⟨nb, Severity.SEVERE⟩, ⟨nc, Severity.CLEAR⟩]).alerts =
      [⟨"SEVERE_WEATHER", na ++ " to " ++ nb,
        "Severe weather conditions detected along this segment"⟩,
       ⟨"SEVERE_WEATHER", nb ++ " to " ++ nc,
        "Severe weather conditions detected along this segment"⟩] := by
  constructor <;> rfl

/-- C8: the route summary is a function of the SEVERE and SIGNIFICANT
segment counts alone — two segment lists with equal counts produce the
identical summary sentence, so no free text from the underlying reports can
reach it. -/
theorem summary_depends_only_on_counts (s1 s2 : List SegmentWeather)
    (hsev : severeSegmentCount s1 = severeSegmentCount s2)
    (hsig : significantSegmentCount s1 = significantSegmentCount s2) :
    generateRouteSummary s1 = generateRouteSummary s2 := by
  unfold generateRouteSummary
  rw [hsev, hsig]

/-- Witness for summary_depends_only_on_counts: two single-segment lists
with different stations and raw weather but equal counts give the same
sentence. -/
theorem summary_depends_only_on_counts_witness :
    generateRouteSummary
      [⟨⟨"AAA", Severity.CLEAR⟩, ⟨"BBB", Severity.SEVERE⟩, Severity.SEVERE⟩] =
    generateRouteSummary
      [⟨⟨"XXX", Severity.SEVERE⟩, ⟨"YYY", Severity.CLEAR⟩, Severity.SEVERE⟩] :=
  summary_depends_only_on_counts
    [⟨⟨"AAA", Severity.CLEAR⟩, ⟨"BBB", Severity.SEVERE⟩, Severity.SEVERE⟩]
    [⟨⟨"XXX", Severity.SEVERE⟩, ⟨"YYY", Severity.CLEAR⟩, Severity.SEVERE⟩]
    (by decide) (by decide)

theorem charToNat_ofNat_valid {n : Nat} (h : n.isValidChar) :
    (Char.ofNat n).toNat = n := by
  unfold Char.ofNat
  rw [dif_pos h]
  rfl

theorem charToUpper_idem (c : Char) : c.toUpper.toUpper = c.toUpper := by
  unfold Char.toUpper
  by_cases h : c.toNat ≥ 97 ∧ c.toNat ≤ 122
  · rw [if_pos h]
    have hv : (c.toNat - 32).isValidChar := Or.inl (by omega)
    have ht : (Char.ofNat (c.toNat - 32)).toNat = c.toNat - 32 :=
      charToNat_ofNat_valid hv
    rw [if_neg]
    rw [ht]
    omega
  · rw [if_neg h, if_neg h]

theorem jsToUpper_idem (s : String) : jsToUpper (jsToUpper s) = jsToUpper s := by
  unfold jsToUpper
  congr 1
  show (s.data.map Char.toUpper).map Char.toUpper = s.data.map Char.toUpper
  rw [List.map_map]
  exact List.map_congr_left (fun c _ => charToUpper_idem c)

theorem jsToUpper_ne_empty {s : String} (h : s ≠ "") : jsToUpper s ≠ "" := by
  intro hcontra
  apply h
  cases s with
  | mk data =>
    cases data with
    | nil => rfl
    | cons c cs =>
      have hdata := congrArg String.data hcontra
      simp [jsToUpper] at hdata

theorem jsFloor_eq_intFloor (q : Rat) : jsFloor q = ⌊q⌋ := rfl

theorem cacheGet_cacheSet_self (c : WxCache) (k : String) (v : CacheEntry) :
    cacheGet (cacheSet c k v) k = some v := by
  induction c with
  | nil => simp [cacheSet, cacheGet]
  | cons p rest ih =>
    by_cases h : p.1 = k
    · simp [cacheSet, cacheGet, h]
    · simp [cacheSet, cacheGet, h, ih]

/-- C10: station lookup is case-insensitive — both the cache key and the
primary query use icao.toUpperCase(), so a fetch for `s` and a fetch for
the uppercased `s` agree exactly, for METAR and for TAF. -/
theorem fetch_case_insensitive (icao : String) (pm : String → Option MetarData)
    (pt : String → Option TafData) (rand : Nat → Rat) (cache : WxCache) (now : Nat)
    (h : icao ≠ "") :
    getLatestMetar icao pm rand cache now =
      getLatestMetar (jsToUpper icao) pm rand cache now ∧
    getLatestTaf icao pt cache now = getLatestTaf (jsToUpper icao) pt cache now := by
  have h2 := jsToUpper_ne_empty h
  have hid := jsToUpper_idem icao
  constructor
  · simp only [getLatestMetar, if_neg h, if_neg h2, hid]
  · simp only [getLatestTaf, if_neg h, if_neg h2, hid]

/-- Witness for fetch_case_insensitive at the lowercase station "kjfk". -/
theorem fetch_case_insensitive_witness :
    getLatestMetar "kjfk" (fun _ => none) (fun _ => 0) [] 0 =
      getLatestMetar (jsToUpper "kjfk") (fun _ => none) (fun _ => 0) [] 0 ∧
    getLatestTaf "kjfk" (fun _ => none) [] 0 =
      getLatestTaf (jsToUpper "kjfk") (fun _ => none) [] 0 :=
  fetch_case_insensitive "kjfk" (fun _ => none) (fun _ => none) (fun _ => 0) [] 0
    (by decide)

/-- C3: with a non-empty station id, no fresh cache entry, and the primary
live source failing, getLatestMetar still returns Except.ok with the mock
record — whose provenance tag (the `source` field, the code's spelling of
SYNTHETIC) is "mock" — and never an error. -/
theorem fallback_returns_synthetic (icao : String) (pm : String → Option MetarData)
    (rand : Nat → Rat) (cache : WxCache) (now : Nat)
    (hne : icao ≠ "")
    (hstale : ∀ e, cacheGet cache ("metar_" ++ jsToUpper icao) = some e →
      CACHE_DURATION ≤ now - e.timestamp)
    (hfail : pm (jsToUpper icao) = none) :
    (getLatestMetar icao pm rand cache now).fst =
      Except.ok (WxData.metar (generateMockMetar (jsToUpper icao) rand now)) ∧
    (generateMockMetar (jsToUpper icao) rand now).source = some "mock" := by
  refine ⟨?_, rfl⟩
  simp only [getLatestMetar, if_neg hne]
  cases hc : cacheGet cache ("metar_" ++ jsToUpper icao) with
  | none => simp [hfail]
  | some e =>
    have hge := hstale e hc
    simp [hfail, Nat.not_lt.mpr hge]

/-- Witness for fallback_returns_synthetic: empty cache, failing primary. -/
theorem fallback_returns_synthetic_witness :
    (getLatestMetar "KJFK" (fun _ => none) (fun _ => 0) [] 0).fst =
      Except.ok (WxData.metar (generateMockMetar (jsToUpper "KJFK") (fun _ => 0) 0)) ∧
    (generateMockMetar (jsToUpper "KJFK") (fun _ => 0) 0).source = some "mock" :=
  fallback_returns_synthetic "KJFK" (fun _ => none) (fun _ => 0) [] 0
    (by decide) (fun e he => by simp [cacheGet] at he) rfl

/-- C7 counterexample: the observation (METAR) TTL is not strictly shorter
than the forecast (TAF) TTL — both freshness checks use the single constant
CACHE_DURATION.  With entries stored at timestamp 0 and a failing primary,
at age CACHE_DURATION - 1 both the METAR and the TAF are still served from
cache, and at age CACHE_DURATION both are expired and fall through to the
mock; so the two cutoffs coincide and the METAR entry survives exactly as
long as the TAF entry. -/
theorem ttl_counterexample :
    (getLatestMetar "KJFK" (fun _ => none) (fun _ => 0) ttlProbeCache
        (CACHE_DURATION - 1)).fst = Except.ok oldMetarEntry.data ∧
    (getLatestTaf "KJFK" (fun _ => none) ttlProbeCache
        (CACHE_DURATION - 1)).fst = Except.ok oldTafEntry.data ∧
    (getLatestMetar "KJFK" (fun _ => none) (fun _ => 0) ttlProbeCache
        CACHE_DURATION).fst =
      Except.ok (WxData.metar (generateMockMetar "KJFK" (fun _ => 0) CACHE_DURATION)) ∧
    (getLatestTaf "KJFK" (fun _ => none) ttlProbeCache CACHE_DURATION).fst =
      Except.ok (WxData.taf (generateMockTaf "KJFK" CACHE_DURATION)) := by
  refine ⟨rfl, rfl, rfl, rfl⟩

/-- C7 (amended): observation and forecast cache entries carry the same TTL,
the single constant CACHE_DURATION; any non-expired entry is returned as-is
with the cache untouched and no live-source call (the result does not
depend on the primary-source outcome at all). -/
theorem cache_ttl_uniform_and_fresh_hit :
    (∀ (icao : String) (pm : String → Option MetarData) (rand : Nat → Rat)
        (cache : WxCache) (now : Nat) (e : CacheEntry),
      icao ≠ "" →
      cacheGet cache ("metar_" ++ jsToUpper icao) = some e →
      now - e.timestamp < CACHE_DURATION →
      getLatestMetar icao pm rand cache now = (Except.ok e.data, cache)) ∧
    (∀ (icao : String) (pt : String → Option TafData) (cache : WxCache)
        (now : Nat) (e : CacheEntry),
      icao ≠ "" →
      cacheGet cache ("taf_" ++ jsToUpper icao) = some e →
      now - e.timestamp < CACHE_DURATION →
      getLatestTaf icao pt cache now = (Except.ok e.data, cache)) := by
  constructor
  · intro icao pm rand cache now e hne hhit hfresh
    simp only [getLatestMetar, if_neg hne]
    simp [hhit, hfresh]
  · intro icao pt cache now e hne hhit hfresh
    simp only [getLatestTaf, if_neg hne]
    simp [hhit, hfresh]

/-- Witness for cache_ttl_uniform_and_fresh_hit: fresh entries one
millisecond before expiry are served for both product kinds. -/
theorem cache_ttl_uniform_and_fresh_hit_witness :
    getLatestMetar "KJFK" (fun _ => none) (fun _ => 0) ttlProbeCache
        (CACHE_DURATION - 1) = (Except.ok oldMetarEntry.data, ttlProbeCache) ∧
    getLatestTaf "KJFK" (fun _ => none) ttlProbeCache
        (CACHE_DURATION - 1) = (Except.ok oldTafEntry.data, ttlProbeCache) :=
  ⟨cache_ttl_uniform_and_fresh_hit.1 "KJFK" (fun _ => none) (fun _ => 0)
      ttlProbeCache (CACHE_DURATION - 1) oldMetarEntry (by decide) (by decide)
      (by decide),
   cache_ttl_uniform_and_fresh_hit.2 "KJFK" (fun _ => none)
      ttlProbeCache (CACHE_DURATION - 1) oldTafEntry (by decide) (by decide)
      (by decide)⟩

/-- C9: fallback results never enter the cache.  On a cache miss with a
failing primary, both fetches return the mock record and leave the cache
exactly as it was; a subsequent call for the same station therefore
re-attempts the primary source, and only a successful primary result is
written to the cache. -/
theorem fallback_not_cached
    (icao : String) (pm pm2 : String → Option MetarData)
    (pt pt2 : String → Option TafData) (rand rand2 : Nat → Rat)
    (cache : WxCache) (now now2 : Nat) (d : MetarData) (dT : TafData)
    (hne : icao ≠ "")
    (hmissM : cacheGet cache ("metar_" ++ jsToUpper icao) = none)
    (hmissT : cacheGet cache ("taf_" ++ jsToUpper icao) = none)
    (hfailM : pm (jsToUpper icao) = none)
    (hfailT : pt (jsToUpper icao) = none)
    (hokM : pm2 (jsToUpper icao) = some d)
    (hokT : pt2 (jsToUpper icao) = some dT) :
    getLatestMetar icao pm rand cache now =
      (Except.ok (WxData.metar (generateMockMetar (jsToUpper icao) rand now)), cache) ∧
    getLatestTaf icao pt cache now =
      (Except.ok (WxData.taf (generateMockTaf (jsToUpper icao) now)), cache) ∧
    getLatestMetar icao pm2 rand2 cache now2 =
      (Except.ok (WxData.metar d),
       cacheSet cache ("metar_" ++ jsToUpper icao)
         { data := WxData.metar d, timestamp := now2 }) ∧
    getLatestTaf icao pt2 cache now2 =
      (Except.ok (WxData.taf dT),
       cacheSet cache ("taf_" ++ jsToUpper icao)
         { data := WxData.taf dT, timestamp := now2 }) := by
  refine ⟨?_, ?_, ?_, ?_⟩
  · simp only [getLatestMetar, if_neg hne]
    simp [hmissM, hfailM]
  · simp only [getLatestTaf, if_neg hne]
    simp [hmissT, hfailT]
  · simp only [getLatestMetar, if_neg hne]
    simp [hmissM, hokM]
  · simp only [getLatestTaf, if_neg hne]
    simp [hmissT, hokT]

/-- Witness for fallback_not_cached on an empty cache: the failed-primary
call leaves the cache empty, the successful-primary call populates it. -/
theorem fallback_not_cached_witness :
    getLatestMetar "KJFK" (fun _ => none) (fun _ => 0) [] 0 =
      (Except.ok (WxData.metar (generateMockMetar (jsToUpper "KJFK") (fun _ => 0) 0)),
       []) ∧
    getLatestTaf "KJFK" (fun _ => none) [] 0 =
      (Except.ok (WxData.taf (generateMockTaf (jsToUpper "KJFK") 0)), []) ∧
    getLatestMetar "KJFK"
        (fun _ => some { raw := "KJFK 010000Z 00000KT 10SM CLR 10/05 A3000",
                         observationTime := 7, station := "KJFK",
                         coordinates := (0, 0), source := none })
        (fun _ => 0) [] 7 =
      (Except.ok (WxData.metar
         { raw := "KJFK 010000Z 00000KT 10SM CLR 10/05 A3000",
           observationTime := 7, station := "KJFK",
           coordinates := (0, 0), source := none }),
       cacheSet [] ("metar_" ++ jsToUpper "KJFK")
         { data := WxData.metar
             { raw := "KJFK 010000Z 00000KT 10SM CLR 10/05 A3000",
               observationTime := 7, station := "KJFK",
               coordinates := (0, 0), source := none },
           timestamp := 7 }) ∧
    getLatestTaf "KJFK"
        (fun _ => some { raw := "TAF KJFK 010000Z 0100/0206 00000KT P6SM SKC",
                         issueTime := 7, station := "KJFK", validTime := 9,
                         source := none }) [] 7 =
      (Except.ok (WxData.taf
         { raw := "TAF KJFK 010000Z 0100/0206 00000KT P6SM SKC",
           issueTime := 7, station := "KJFK", validTime := 9, source := none }),
       cacheSet [] ("taf_" ++ jsToUpper "KJFK")
         { data := WxData.taf
             { raw := "TAF KJFK 010000Z 0100/0206 00000KT P6SM SKC",
               issueTime := 7, station := "KJFK", validTime := 9, source := none },
           timestamp := 7 }) :=
  fallback_not_cached "KJFK"
    (fun _ => none)
    (fun _ => some { raw := "KJFK 010000Z 00000KT 10SM CLR 10/05 A3000",
                     observationTime := 7, station := "KJFK",
                     coordinates := (0, 0), source := none })
    (fun _ => none)
    (fun _ => some { raw := "TAF KJFK 010000Z 0100/0206 00000KT P6SM SKC",
                     issueTime := 7, station := "KJFK", validTime := 9,
                     source := none })
    (fun _ => 0) (fun _ => 0) [] 0 7 _ _
    (by decide) rfl rfl rfl rfl rfl rfl

/-- C1 counterexample: two fetches for the same station issued concurrently
from an empty cache, the second arriving before the first resolves, issue
two live-source calls, not one — getLatestMetar has no single-flight
de-duplication, because the cache is only written after the await resolves
and there is no record of in-flight requests. -/
theorem single_flight_counterexample :
    ((beginMetarFetch (beginMetarFetch ⟨[], 0⟩ "KJFK" 0).fst "KJFK" 0).fst).liveCalls
      = 2 ∧
    ((beginMetarFetch (beginMetarFetch ⟨[], 0⟩ "KJFK" 0).fst "KJFK" 0).fst).liveCalls
      ≠ 1 := by
  decide

/-- C1 (amended): concurrent fetches for the same key are NOT de-duplicated:
whenever the key misses the cache, each of two callers whose synchronous
sections both run before either resolution issues its own live-source call
(two calls total); only a caller that arrives after the first fetch has
resolved (within the TTL) reuses the cached result without a live call. -/
theorem concurrent_fetch_duplicates_live_call
    (st : AggState) (icao : String) (now now2 : Nat) (d : MetarData)
    (hmiss : cacheGet st.cache ("metar_" ++ jsToUpper icao) = none)
    (hfresh : now2 - now < CACHE_DURATION) :
    ((beginMetarFetch (beginMetarFetch st icao now).fst icao now).fst).liveCalls
        = st.liveCalls + 2 ∧
    beginMetarFetch (resolveMetarFetch (beginMetarFetch st icao now).fst icao d now)
        icao now2
      = (resolveMetarFetch (beginMetarFetch st icao now).fst icao d now,
         some (WxData.metar d)) := by
  constructor
  · simp [beginMetarFetch, hmiss]
  · simp [beginMetarFetch, resolveMetarFetch, hmiss, cacheGet_cacheSet_self, hfresh]

/-- Witness for concurrent_fetch_duplicates_live_call from the empty state. -/
theorem concurrent_fetch_duplicates_live_call_witness :
    ((beginMetarFetch (beginMetarFetch ⟨[], 5⟩ "KLAX" 0).fst "KLAX" 0).fst).liveCalls
        = 5 + 2 ∧
    beginMetarFetch
        (resolveMetarFetch (beginMetarFetch ⟨[], 5⟩ "KLAX" 0).fst "KLAX"
          { raw := "KLAX 010000Z 00000KT 10SM CLR 10/05 A3000",
            observationTime := 0, station := "KLAX", coordinates := (0, 0),
            source := none } 0) "KLAX" 1
      = (resolveMetarFetch (beginMetarFetch ⟨[], 5⟩ "KLAX" 0).fst "KLAX"
          { raw := "KLAX 010000Z 00000KT 10SM CLR 10/05 A3000",
            observationTime := 0, station := "KLAX", coordinates := (0, 0),
            source := none } 0,
         some (WxData.metar
          { raw := "KLAX 010000Z 00000KT 10SM CLR 10/05 A3000",
            observationTime := 0, station := "KLAX", coordinates := (0, 0),
            source := none })) :=
  concurrent_fetch_duplicates_live_call ⟨[], 5⟩ "KLAX" 0 1 _ rfl (by decide)

/-- C2 counterexample: the mock METAR generator is not deterministic per
(station, time bucket) — with the same station and the same clock, two
calls whose underlying Math.random draws differ return different records
(different wind, temperature and altimeter in the raw text). -/
theorem mock_metar_randomness_counterexample :
    generateMockMetar "KJFK" (fun _ => 0) 0 ≠
      generateMockMetar "KJFK" (fun _ => (1 : Rat) / 2) 0 := by
  have e1 : generateMockMetar "KJFK" (fun _ => 0) 0 =
      { raw := "KJFK 252153Z 00002KT 10SM CLR 10/8 A2990 RMK AO2",
        observationTime := 0, station := "KJFK", coordinates := (40, -74),
        source := some "mock" } := by
    simp only [generateMockMetar, jsFloor_eq_intFloor]
    norm_num
    decide
  have e2 : generateMockMetar "KJFK" (fun _ => (1 : Rat) / 2) 0 =
      { raw := "KJFK 252153Z 18012KT 10SM CLR 20/15 A3005 RMK AO2",
        observationTime := 0, station := "KJFK", coordinates := (40, -74),
        source := some "mock" } := by
    simp only [generateMockMetar, jsFloor_eq_intFloor]
    norm_num
    decide
  rw [e1, e2]
  decide

/-- C2 (amended): the mock generator is deterministic only relative to its
random draws: it is a pure function of the station id, the clock and the
five Math.random values it consumes, so calls agreeing on those five draws
return identical output — but the draws come from the global random source,
not from a (station id, time bucket) seed, so calls within the same time
bucket need not agree. -/
theorem mock_metar_deterministic_in_draws (icao : String) (now : Nat)
    (r r2 : Nat → Rat) (h : ∀ n, n < 5 → r n = r2 n) :
    generateMockMetar icao r now = generateMockMetar icao r2 now := by
  unfold generateMockMetar
  rw [h 0 (by omega), h 1 (by omega), h 2 (by omega), h 3 (by omega),
    h 4 (by omega)]

/-- Witness for mock_metar_deterministic_in_draws with identical draw
streams. -/
theorem mock_metar_deterministic_in_draws_witness :
    generateMockMetar "KJFK" (fun _ => (1 : Rat) / 3) 42 =
      generateMockMetar "KJFK" (fun _ => (1 : Rat) / 3) 42 :=
  mock_metar_deterministic_in_draws "KJFK" 42 (fun _ => (1 : Rat) / 3)
    (fun _ => (1 : Rat) / 3) (fun _ _ => rfl)

/-- C4 counterexample: decoding is not partial-success.  The good input
parses in full; corrupting a single group (the altimeter, `A3001` → `A30`)
makes parseMetar discard the whole record and return the sentinel summary,
preserving none of the other groups (station, time, wind, visibility,
clouds, temperature) even though they all still match their sub-patterns. -/
theorem parse_metar_partial_success_counterexample :
    parseMetar metarGoodInput =
      some { raw := metarGoodInput,
             summary := "Station: KJFK, Time: 252153Z, Wind: 180° at 10kt, Visibility: 10SM, Clouds: FEW050, Temp/Dew: 22/18°C, Pressure: 3001" } ∧
    parseMetar metarBadAltimeterInput =
      some { raw := metarBadAltimeterInput, summary := "Unable to parse METAR." } := by
  constructor <;> rfl

/-- C4 (amended): decoding an observation report is all-or-nothing — the
parser applies a single whole-record pattern, and for every non-empty raw
string on which that pattern fails anywhere in the string, the entire
record is discarded in favour of the fixed "Unable to parse METAR."
sentinel; no individual group is marked unavailable and no decoding
continues past the failure. -/
theorem parse_metar_all_or_nothing (s : String) (hne : s ≠ "")
    (hfail : jsSearch metarToks s.data = none) :
    parseMetar s = some { raw := s, summary := "Unable to parse METAR." } := by
  unfold parseMetar
  rw [if_neg hne, hfail]

/-- Witness for parse_metar_all_or_nothing at the corrupted-altimeter
input. -/
theorem parse_metar_all_or_nothing_witness :
    parseMetar metarBadAltimeterInput =
      some { raw := metarBadAltimeterInput, summary := "Unable to parse METAR." } :=
  parse_metar_all_or_nothing metarBadAltimeterInput (by decide) rfl
